import Mathlib

/-!
Verification development for the ISO-drawing PDF table extractor
(`main.py`): a shallow embedding of the extraction pipeline — rotation
correction of bounding boxes, keyword anchor search, region text
extraction with a primary and a fallback coordinate set, table parsing
and validation against a 19-column schema, and folder-level batch
aggregation — together with theorems about its behaviour.
-/

namespace PdfExtract

/-! ## Python string primitives

The pipeline manipulates text using Python's `str.strip()`,
`str.split()` (split on runs of whitespace, dropping empty fields),
`str.split("\n")`, `str.lower()` and `str.endswith(...)`.  These are
embedded as structurally recursive functions on the character list of
a `String`, so that all of them evaluate on concrete inputs.
-/

/-- Whitespace characters recognised by Python's `str.strip` / `str.split`. -/
def wsChar (c : Char) : Bool :=
  c = ' ' || c = '\t' || c = '\n' || c = '\x0d' || c = '\x0b' || c = '\x0c'

/-- Drop leading whitespace characters from a character list. -/
def dropLeadingWs : List Char → List Char
  | [] => []
  | c :: cs => if wsChar c then dropLeadingWs cs else c :: cs

/-- Python `s.strip()`: remove leading and trailing whitespace. -/
def pyStrip (s : String) : String :=
  ⟨(dropLeadingWs (dropLeadingWs s.data.reverse).reverse)⟩

/-- Worker for `pySplitWs`: split on runs of whitespace, accumulating the
current field in reverse. -/
def splitWsAux : List Char → List Char → List (List Char)
  | [], acc => if acc.isEmpty then [] else [acc.reverse]
  | c :: cs, acc =>
    if wsChar c then
      if acc.isEmpty then splitWsAux cs [] else acc.reverse :: splitWsAux cs []
    else splitWsAux cs (c :: acc)

/-- Python `s.split()` with no separator: split on runs of whitespace,
discarding empty fields (so leading/trailing whitespace yields nothing). -/
def pySplitWs (s : String) : List String :=
  (splitWsAux s.data []).map (fun l => ⟨l⟩)

/-- Worker for `pySplitLines`: split at every newline character. -/
def splitNlAux : List Char → List Char → List (List Char)
  | [], acc => [acc.reverse]
  | c :: cs, acc =>
    if c = '\n' then acc.reverse :: splitNlAux cs []
    else splitNlAux cs (c :: acc)

/-- Python `s.split("\n")`: split at newlines, keeping empty pieces. -/
def pySplitLines (s : String) : List String :=
  (splitNlAux s.data []).map (fun l => ⟨l⟩)

/-- Python `s.lower()` (ASCII case folding). -/
def pyLower (s : String) : String := ⟨s.data.map Char.toLower⟩

/-- Python `s.endswith(suffix)`. -/
def pyEndsWith (s suf : String) : Bool :=
  suf.data.isSuffixOf s.data

/-- Lexicographic order on strings by character code, used to state
(sorted-name order) properties about the batch processing order. -/
def charListLe : List Char → List Char → Bool
  | [], _ => true
  | _ :: _, [] => false
  | a :: as, b :: bs =>
    if a.toNat < b.toNat then true
    else if b.toNat < a.toNat then false
    else charListLe as bs

/-! ## Data model

A `Page` carries its rotation, its unrotated dimensions, and the two
document primitives the pipeline consumes: `search_for` (literal text
search returning raw, uncorrected bounding boxes, PyMuPDF's
`page.search_for`) and `get_text` (clipped raw text extraction,
`page.get_text("text", clip=...)`).  A `Document` is its ordered page
list; a file that fails to open is represented as `none` at the
`Option Document` boundary.
-/

/-- A bounding box `(x0, y0, x1, y1)`, `fitz.Rect`. -/
structure Rect where
  x0 : ℚ
  y0 : ℚ
  x1 : ℚ
  y1 : ℚ
deriving DecidableEq

instance : Inhabited Rect := ⟨⟨0, 0, 0, 0⟩⟩

/-- A PDF page: rotation, unrotated dimensions, and the underlying
text-search and clipped-text-extraction primitives. -/
structure Page where
  rotation : Int
  width : ℚ
  height : ℚ
  search_for : String → List Rect
  get_text : Rect → String

instance : Inhabited Page := ⟨⟨0, 0, 0, fun _ => [], fun _ => ""⟩⟩

/-- A PDF document: its ordered sequence of pages. -/
structure Document where
  pages : List Page

/-- Page lookup `doc[idx]` for an index produced by enumerating the document. -/
def Document.getPage (doc : Document) (idx : Nat) : Page :=
  doc.pages.getD idx default

/-! ## main.py:5 `get_corrected_rect` -/

/-- Embeds `get_corrected_rect(page, rect)`: map a rect given in unrotated page
coordinates into the page's displayed orientation (main.py lines 5-19). -/
def get_corrected_rect (page : Page) (rect : Rect) : Rect :=
  let rotation := page.rotation
  let page_width := page.width
  let page_height := page.height
  if rotation = 90 then
    ⟨rect.y0, page_width - rect.x1, rect.y1, page_width - rect.x0⟩
  else if rotation = 180 then
    ⟨page_width - rect.x1, page_height - rect.y1,
     page_width - rect.x0, page_height - rect.y0⟩
  else if rotation = 270 then
    ⟨page_height - rect.y1, rect.x0, page_height - rect.y0, rect.x1⟩
  else rect

/-! ## main.py:21 `find_text_position` -/

/-- Loop body of `find_text_position`: pages are enumerated from `idx`,
and every raw search hit is rotation-corrected with its own page. -/
def find_positions_from (pages : List Page) (idx : Nat) (s : String) :
    List (Nat × Rect) :=
  match pages with
  | [] => []
  | p :: rest =>
    (p.search_for s).map (fun bbox => (idx, get_corrected_rect p bbox)) ++
      find_positions_from rest (idx + 1) s

/-- Embeds `find_text_position(doc, search_text)` (main.py lines 21-31). -/
def find_text_position (doc : Document) (s : String) : List (Nat × Rect) :=
  find_positions_from doc.pages 0 s

/-- The underlying search primitive's results, page-enumerated but with
the raw, uncorrected bounding boxes (for comparison with
`find_text_position`). -/
def raw_positions_from (pages : List Page) (idx : Nat) (s : String) :
    List (Nat × Rect) :=
  match pages with
  | [] => []
  | p :: rest =>
    (p.search_for s).map (fun bbox => (idx, bbox)) ++
      raw_positions_from rest (idx + 1) s

/-- Raw (uncorrected) search positions over a whole document. -/
def raw_search_positions (doc : Document) (s : String) : List (Nat × Rect) :=
  raw_positions_from doc.pages 0 s

/-! ## main.py:33 `extract_text_in_region` -/

/-- Embeds `extract_text_in_region(page, rect)` (main.py lines 33-39):
rotation-correct the clip rect, extract its text, and strip it
(`text.strip() if text else ""`). -/
def extract_text_in_region (page : Page) (rect : Rect) : String :=
  let corrected_rect := get_corrected_rect page rect
  let text := page.get_text corrected_rect
  if text = "" then "" else pyStrip text

/-! ## Coordinate sets (main.py lines 46-53) -/

def table_rect_set1 : Rect :=
  ⟨39.89999771118164, 760.1726684570312, 557.47998046875, 820.8424682617188⟩
def iso_no_rect_set1 : Rect :=
  ⟨960.6903686523438, 811.55810546875, 1500.6903686523438, 816.8818969726562⟩
def rev_no_rect_set1 : Rect :=
  ⟨1156.469970703125, 812.6487426757812, 1172.7728271484375, 820.2630004882812⟩

def table_rect_set2 : Rect :=
  ⟨10.4000244140625, 535.4000244140625, 389.02935546875, 567.79730224609375⟩
def iso_no_rect_set2 : Rect :=
  ⟨687.4000244140625, 565.4000244140625, 780.02935546875, 580.79730224609375⟩
def rev_no_rect_set2 : Rect :=
  ⟨820.4000244140625, 575.4000244140625, 829.02935546875, 579.79730224609375⟩

/-! ## Table schema and parsing (main.py lines 104-130) -/

/-- The 19 named schema columns (main.py lines 106-110). -/
def columns : List String :=
  ["NPS", "SPEC", "OPER.PRESS", "OPER.TEMP", "DESIGN.PRESS", "DESIGN.TEMP",
   "TEST.PRESS", "MEDIUM", "INSULATION.TYPE", "INSULATION.THK", "TRACING.TEMP",
   "PAUT", "UT", "PT", "MT", "PAINTCODE", "PWHT", "STEAMOUT", "TOXIC"]

/-- A pandas `DataFrame`, as used here: column labels plus string rows. -/
structure DataFrame where
  cols : List String
  rows : List (List String)
deriving DecidableEq

/-- Embeds `rows = [line.split() for line in table_text.split("\n") if line.strip()]`
(main.py line 112). -/
def parse_rows (table_text : String) : List (List String) :=
  ((pySplitLines table_text).filter (fun line => pyStrip line != "")).map pySplitWs

/-- The parse/validate/build step of `extract_data_from_pdf`
(main.py lines 112-130): reject an empty row list, reject the whole
table when any row's field count differs from the schema, otherwise
build the DataFrame and append the document-level `ISO_NO` / `REV.NO`
columns. -/
def parse_table (table_text iso_no_text rev_no_text : String) :
    Option DataFrame :=
  let rows := parse_rows table_text
  if rows = [] then none
  else if ∃ r ∈ rows, r.length ≠ columns.length then none
  else some ⟨columns ++ ["ISO_NO", "REV.NO"],
             rows.map (fun r => r ++ [iso_no_text, rev_no_text])⟩

/-! ## main.py:41 `extract_data_from_pdf` -/

/-- Body of `extract_data_from_pdf` once the document is open
(main.py lines 56-130): find the five keyword anchors (returning `none`
when any is missing), take each first anchor's page, try the primary
coordinate set's table region, fall back to the second set as a whole,
and parse. -/
def extract_data_from_doc (doc : Document) : Option DataFrame :=
  let nps_positions := find_text_position doc "NPS"
  let toxic_positions := find_text_position doc "TOXIC"
  let kosha_positions := find_text_position doc "KOSHA"
  let iso_positions := find_text_position doc "ISO DWG. NO."
  let rev_positions := find_text_position doc "REV. NO"
  if nps_positions = [] ∨ toxic_positions = [] ∨ kosha_positions = [] ∨
      iso_positions = [] ∨ rev_positions = [] then
    none
  else
    let nps_page := doc.getPage (nps_positions.headD (0, default)).1
    let iso_page := doc.getPage (iso_positions.headD (0, default)).1
    let rev_page := doc.getPage (rev_positions.headD (0, default)).1
    let table_text1 := extract_text_in_region nps_page table_rect_set1
    if pyStrip table_text1 ≠ "" then
      parse_table table_text1
        (extract_text_in_region iso_page iso_no_rect_set1)
        (extract_text_in_region rev_page rev_no_rect_set1)
    else
      let table_text2 := extract_text_in_region nps_page table_rect_set2
      if pyStrip table_text2 = "" then none
      else
        parse_table table_text2
          (extract_text_in_region iso_page iso_no_rect_set2)
          (extract_text_in_region rev_page rev_no_rect_set2)

/-- Embeds `extract_data_from_pdf(pdf_path)` (main.py lines 41-134): a file
that fails to open (`none`) is caught by the outer handler and yields
`None`; otherwise the open document is processed. -/
def extract_data_from_pdf : Option Document → Option DataFrame
  | none => none
  | some doc => extract_data_from_doc doc

/-! ## Failure taxonomy

`extract_data_from_pdf` returns the bare `None` on every failure; the
distinct failure reasons exist only in the printed diagnostics
(main.py lines 65, 69, 98, 117, 120, 133).  The `_r` variants rerun the
same branches, recording which diagnostic fired. -/

/-- The five per-document failure reasons of the error taxonomy. -/
inductive FailKind where
  | openError : FailKind
  | missingAnchor : FailKind
  | noTableText : FailKind
  | emptyTable : FailKind
  | schemaMismatch : FailKind
deriving DecidableEq

/-- Rerun of `parse_table` with its two failure diagnostics made explicit
(main.py lines 116-122). -/
def parse_table_r (table_text iso_no_text rev_no_text : String) :
    Except FailKind DataFrame :=
  let rows := parse_rows table_text
  if rows = [] then .error .emptyTable
  else if ∃ r ∈ rows, r.length ≠ columns.length then .error .schemaMismatch
  else .ok ⟨columns ++ ["ISO_NO", "REV.NO"],
            rows.map (fun r => r ++ [iso_no_text, rev_no_text])⟩

/-- Rerun of `extract_data_from_doc` with its failure diagnostics made explicit. -/
def extract_data_from_doc_r (doc : Document) : Except FailKind DataFrame :=
  let nps_positions := find_text_position doc "NPS"
  let toxic_positions := find_text_position doc "TOXIC"
  let kosha_positions := find_text_position doc "KOSHA"
  let iso_positions := find_text_position doc "ISO DWG. NO."
  let rev_positions := find_text_position doc "REV. NO"
  if nps_positions = [] ∨ toxic_positions = [] ∨ kosha_positions = [] ∨
      iso_positions = [] ∨ rev_positions = [] then
    .error .missingAnchor
  else
    let nps_page := doc.getPage (nps_positions.headD (0, default)).1
    let iso_page := doc.getPage (iso_positions.headD (0, default)).1
    let rev_page := doc.getPage (rev_positions.headD (0, default)).1
    let table_text1 := extract_text_in_region nps_page table_rect_set1
    if pyStrip table_text1 ≠ "" then
      parse_table_r table_text1
        (extract_text_in_region iso_page iso_no_rect_set1)
        (extract_text_in_region rev_page rev_no_rect_set1)
    else
      let table_text2 := extract_text_in_region nps_page table_rect_set2
      if pyStrip table_text2 = "" then .error .noTableText
      else
        parse_table_r table_text2
          (extract_text_in_region iso_page iso_no_rect_set2)
          (extract_text_in_region rev_page rev_no_rect_set2)

/-- Rerun of `extract_data_from_pdf` with its failure diagnostics made explicit. -/
def extract_data_from_pdf_r : Option Document → Except FailKind DataFrame
  | none => .error .openError
  | some doc => extract_data_from_doc_r doc

/-! ## main.py:136 `process_pdfs_in_folder` -/

/-- The three user-visible outcomes of a batch run: "no PDFs in the
folder", "no data to extract" (zero successful documents), and "CSV
saved" with the combined table. -/
inductive BatchResult where
  | noPdfs : BatchResult
  | noData : BatchResult
  | savedCsv : DataFrame → BatchResult
deriving DecidableEq

/-- Embeds `pdf_files = [f for f in os.listdir(folder_path) if f.lower().endswith(".pdf")]`
(main.py line 145), as a function of the directory listing. -/
def pdf_files_of (listing : List String) : List String :=
  listing.filter (fun f => pyEndsWith (pyLower f) ".pdf")

/-- Embeds `process_pdfs_in_folder()` (main.py lines 136-164) after the folder
prompt: select `.pdf` files from the listing, extract each (a file that
fails yields `None` and is skipped), keep non-empty DataFrames, and
either report "no data" or concatenate everything into one CSV table.
`openDoc` abstracts `fitz.open`, with `none` for an open failure. -/
def process_pdfs_in_folder (listing : List String)
    (openDoc : String → Option Document) : BatchResult :=
  let pdf_files := pdf_files_of listing
  if pdf_files = [] then .noPdfs
  else
    let all_data := pdf_files.filterMap (fun f =>
      match extract_data_from_pdf (openDoc f) with
      | some df => if df.rows = [] then none else some df
      | none => none)
    if all_data = [] then .noData
    else .savedCsv ⟨columns ++ ["ISO_NO", "REV.NO"],
                    (all_data.map DataFrame.rows).flatten⟩

/-! ## Concrete demonstration documents

Small synthetic documents used to instantiate the theorems below on
concrete inputs.  `docPrimary` has its three keywords on three distinct
pages so that the table, ISO and revision texts come from distinct
`get_text` primitives; every page has rotation 0. -/

/-- A table line of exactly 19 whitespace-separated fields. -/
def demo_line : String := "a b c d e f g h i j k l m n o p q r s"

/-- A second, different 19-field table line. -/
def demo_line2 : String := "A B C D E F G H I J K L M N O P Q R S"

/-- Page holding the three domain-marker keywords and the table text. -/
def pageNps : Page :=
  { rotation := 0, width := 1600, height := 900
    search_for := fun s =>
      if s = "NPS" || s = "TOXIC" || s = "KOSHA" then [⟨0, 0, 1, 1⟩] else []
    get_text := fun _ => demo_line }

/-- Page holding the "ISO DWG. NO." label; its region text is "ISO-0001". -/
def pageIso : Page :=
  { rotation := 0, width := 1600, height := 900
    search_for := fun s => if s = "ISO DWG. NO." then [⟨2, 2, 3, 3⟩] else []
    get_text := fun _ => "ISO-0001" }

/-- Page holding the "REV. NO" label; its region text is "7". -/
def pageRev : Page :=
  { rotation := 0, width := 1600, height := 900
    search_for := fun s => if s = "REV. NO" then [⟨4, 4, 5, 5⟩] else []
    get_text := fun _ => "7" }

/-- A document on which extraction succeeds through the primary set. -/
def docPrimary : Document := ⟨[pageNps, pageIso, pageRev]⟩

/-- Variant of `docPrimary` with different table text and metadata. -/
def docPrimary2 : Document :=
  ⟨[{ pageNps with get_text := fun _ => demo_line2 },
    { pageIso with get_text := fun _ => "ISO-0002" },
    { pageRev with get_text := fun _ => "8" }]⟩

/-- A document with no pages: every keyword search returns no anchors. -/
def docNoAnchors : Document := ⟨[]⟩

/-- A page rotated by 90 degrees (no search hits, no text). -/
def page_rot90 : Page :=
  { rotation := 90, width := 100, height := 50
    search_for := fun _ => [], get_text := fun _ => "" }

/-- A page rotated by 180 degrees (no search hits, no text). -/
def page_rot180 : Page :=
  { rotation := 180, width := 100, height := 50
    search_for := fun _ => [], get_text := fun _ => "" }

/-- A sample rectangle. -/
def rect_demo : Rect := ⟨1, 2, 3, 4⟩

/-- Opener for batch demonstrations: two distinct openable files. -/
def openDemo : String → Option Document := fun f =>
  if f = "a.pdf" then some docPrimary
  else if f = "b.pdf" then some docPrimary2
  else none

/-! ## Helper lemmas -/

/-- Any rotation other than 90, 180 and 270 leaves the rect unchanged. -/
theorem get_corrected_rect_of_other (page : Page) (rect : Rect)
    (h90 : page.rotation ≠ 90) (h180 : page.rotation ≠ 180)
    (h270 : page.rotation ≠ 270) :
    get_corrected_rect page rect = rect := by
  simp [get_corrected_rect, h90, h180, h270]

/-- Shape of a successful parse: the DataFrame is the token matrix with
the two metadata fields appended, the row list is non-empty, and every
row matched the schema width. -/
theorem parse_table_eq_some (t i r : String) (df : DataFrame)
    (h : parse_table t i r = some df) :
    df = ⟨columns ++ ["ISO_NO", "REV.NO"],
          (parse_rows t).map (fun row => row ++ [i, r])⟩ ∧
      parse_rows t ≠ [] ∧
      ∀ row ∈ parse_rows t, row.length = columns.length := by
  simp only [parse_table] at h
  split at h
  · exact absurd h (by simp)
  · split at h
    · exact absurd h (by simp)
    · rename_i hnot
      refine ⟨by injection h with h; exact h.symm, by assumption, ?_⟩
      intro row hrow
      by_contra hne
      exact hnot ⟨row, hrow, hne⟩

/-- A successful extraction is a successful parse of some texts. -/
theorem extract_some_exists_parse (f : Option Document) (df : DataFrame)
    (h : extract_data_from_pdf f = some df) :
    ∃ t i r, parse_table t i r = some df := by
  match f with
  | none => exact absurd h (by simp [extract_data_from_pdf])
  | some doc =>
    simp only [extract_data_from_pdf, extract_data_from_doc] at h
    split at h
    · exact absurd h (by simp)
    · split at h
      · exact ⟨_, _, _, h⟩
      · split at h
        · exact absurd h (by simp)
        · exact ⟨_, _, _, h⟩

/-- A successful extraction never has an empty row list. -/
theorem extract_rows_ne_nil (f : Option Document) (df : DataFrame)
    (h : extract_data_from_pdf f = some df) : df.rows ≠ [] := by
  obtain ⟨t, i, r, hp⟩ := extract_some_exists_parse f df h
  obtain ⟨hdf, hne, -⟩ := parse_table_eq_some t i r df hp
  subst hdf
  simpa using hne

/-- Lemma: `parse_table` is the reason-annotated parse with the reason erased. -/
theorem parse_table_eq_toOption (t i r : String) :
    parse_table t i r = (parse_table_r t i r).toOption := by
  simp only [parse_table, parse_table_r]
  split
  · rfl
  · split <;> rfl

/-- Lemma: `extract_data_from_pdf` is the reason-annotated extraction with the
reason erased: every failure kind collapses to the same `none`. -/
theorem extract_eq_toOption (f : Option Document) :
    extract_data_from_pdf f = (extract_data_from_pdf_r f).toOption := by
  match f with
  | none => rfl
  | some doc =>
    show extract_data_from_doc doc = (extract_data_from_doc_r doc).toOption
    simp only [extract_data_from_doc, extract_data_from_doc_r]
    split
    · rfl
    · split
      · exact parse_table_eq_toOption _ _ _
      · split
        · rfl
        · exact parse_table_eq_toOption _ _ _

/-- On an all-rotation-0 page list, corrected positions are the raw ones. -/
theorem find_positions_from_rot0 (pages : List Page) (idx : Nat) (s : String)
    (h : ∀ p ∈ pages, p.rotation = 0) :
    find_positions_from pages idx s = raw_positions_from pages idx s := by
  induction pages generalizing idx with
  | nil => rfl
  | cons p rest ih =>
    simp only [find_positions_from, raw_positions_from]
    congr 1
    · apply List.map_congr_left
      intro bbox _
      have hp : p.rotation = 0 := h p (List.mem_cons_self p rest)
      rw [get_corrected_rect_of_other p bbox (by rw [hp]; decide)
        (by rw [hp]; decide) (by rw [hp]; decide)]
    · exact ih (idx + 1) (fun q hq => h q (List.mem_cons_of_mem p hq))

/-! ## Claim theorems -/

/-- C2: the geometry corrector is a pure case analysis on the rotation
value — identity at 0, the three fixed box transforms at 90, 180 and
270, and identity again (defensive fallback) at every other rotation
value. -/
theorem c2_rotation_correction_cases (page : Page) (rect : Rect) :
    (page.rotation = 0 → get_corrected_rect page rect = rect) ∧
    (page.rotation = 90 → get_corrected_rect page rect =
      ⟨rect.y0, page.width - rect.x1, rect.y1, page.width - rect.x0⟩) ∧
    (page.rotation = 180 → get_corrected_rect page rect =
      ⟨page.width - rect.x1, page.height - rect.y1,
       page.width - rect.x0, page.height - rect.y0⟩) ∧
    (page.rotation = 270 → get_corrected_rect page rect =
      ⟨page.height - rect.y1, rect.x0, page.height - rect.y0, rect.x1⟩) ∧
    (page.rotation ≠ 90 → page.rotation ≠ 180 → page.rotation ≠ 270 →
      get_corrected_rect page rect = rect) := by
  refine ⟨?_, ?_, ?_, ?_, get_corrected_rect_of_other page rect⟩
  · intro h
    exact get_corrected_rect_of_other page rect
      (by rw [h]; decide) (by rw [h]; decide) (by rw [h]; decide)
  · intro h
    simp [get_corrected_rect, h]
  · intro h
    simp [get_corrected_rect, h]
  · intro h
    simp [get_corrected_rect, h]

/-- C2 witness: the 90-degree transform on a concrete page and rect. -/
theorem c2_rotation_correction_cases_witness :
    get_corrected_rect page_rot90 rect_demo =
      ⟨rect_demo.y0, page_rot90.width - rect_demo.x1,
       rect_demo.y1, page_rot90.width - rect_demo.x0⟩ :=
  (c2_rotation_correction_cases page_rot90 rect_demo).2.1 rfl

/-- C6: correcting at rotation 0 is the identity; correcting twice at
rotation 180 with consistent dimensions restores the original rect; and
on an all-rotation-0 document the anchor locator's positions are
exactly the raw search primitive's positions. -/
theorem c6_geometry_self_consistency (page : Page) (rect : Rect)
    (doc : Document) (kw : String) :
    (page.rotation = 0 → get_corrected_rect page rect = rect) ∧
    (page.rotation = 180 →
      get_corrected_rect page (get_corrected_rect page rect) = rect) ∧
    ((∀ p ∈ doc.pages, p.rotation = 0) →
      find_text_position doc kw = raw_search_positions doc kw) := by
  refine ⟨?_, ?_, ?_⟩
  · intro h
    exact get_corrected_rect_of_other page rect
      (by rw [h]; decide) (by rw [h]; decide) (by rw [h]; decide)
  · intro h
    obtain ⟨a, b, c, d⟩ := rect
    simp only [get_corrected_rect, h]
    norm_num [Rect.mk.injEq]
  · intro h
    exact find_positions_from_rot0 doc.pages 0 kw h

/-- C6 witness: the 180-twice and rotation-0-document cases on concrete
inputs. -/
theorem c6_geometry_self_consistency_witness :
    get_corrected_rect page_rot180 (get_corrected_rect page_rot180 rect_demo) =
      rect_demo ∧
    find_text_position docPrimary "NPS" = raw_search_positions docPrimary "NPS" :=
  ⟨(c6_geometry_self_consistency page_rot180 rect_demo docPrimary "NPS").2.1 rfl,
   (c6_geometry_self_consistency page_rot180 rect_demo docPrimary "NPS").2.2
     (by decide)⟩

/-- C3: the parser/validator fails exactly when, after line splitting
and blank-line filtering, zero rows remain, or some row's
whitespace-split field count differs from the 19-column schema — one
bad row rejects the whole table, with zero rows accepted. -/
theorem c3_parse_validation_iff (t i r : String) :
    columns.length = 19 ∧
    (parse_table t i r = none ↔
      parse_rows t = [] ∨ ∃ row ∈ parse_rows t, row.length ≠ 19) := by
  have hcl : columns.length = 19 := rfl
  refine ⟨hcl, ?_⟩
  simp only [parse_table, hcl]
  split
  · rename_i h0
    exact ⟨fun _ => Or.inl h0, fun _ => rfl⟩
  · rename_i h0
    split
    · rename_i hex
      exact ⟨fun _ => Or.inr hex, fun _ => rfl⟩
    · rename_i hnot
      constructor
      · intro h
        exact absurd h (Option.some_ne_none _)
      · intro h
        rcases h with h | h
        · exact absurd h h0
        · exact absurd h hnot

/-- C4: round-trip — when the table text splits into lines `ls`, every
line is blank or carries exactly 19 whitespace-separated tokens, and at
least one line is non-blank, parsing succeeds with exactly one row per
non-blank line, holding that line's tokens in their original order
(plus the two appended metadata fields). -/
theorem c4_parse_round_trip (t i r : String) (ls : List String)
    (hsplit : pySplitLines t = ls)
    (hall : ∀ l ∈ ls, pyStrip l = "" ∨ (pySplitWs l).length = 19)
    (hne : ls.filter (fun l => pyStrip l != "") ≠ []) :
    parse_table t i r =
      some ⟨columns ++ ["ISO_NO", "REV.NO"],
        (ls.filter (fun l => pyStrip l != "")).map
          (fun l => pySplitWs l ++ [i, r])⟩ ∧
    ((ls.filter (fun l => pyStrip l != "")).map
        (fun l => pySplitWs l ++ [i, r])).length =
      (ls.filter (fun l => pyStrip l != "")).length := by
  have hrows : parse_rows t =
      (ls.filter (fun l => pyStrip l != "")).map pySplitWs := by
    rw [parse_rows, hsplit]
  have hlen : ∀ row ∈ parse_rows t, row.length = columns.length := by
    rw [hrows]
    intro row hrow
    obtain ⟨l, hl, rfl⟩ := List.mem_map.1 hrow
    have hl' := List.mem_filter.1 hl
    rcases hall l hl'.1 with hb | h19
    · have := hl'.2
      rw [hb] at this
      simp at this
    · rw [h19]
      exact rfl
  have hnil : parse_rows t ≠ [] := by
    rw [hrows]
    simpa using hne
  have hnot : ¬ ∃ row ∈ parse_rows t, row.length ≠ columns.length := by
    rintro ⟨row, hrow, hcon⟩
    exact hcon (hlen row hrow)
  refine ⟨?_, List.length_map _ _⟩
  simp only [parse_table, if_neg hnil, if_neg hnot]
  rw [hrows, List.map_map]
  rfl

/-- Table text for the C4 witness: two 19-token lines around a blank
line. -/
def demo_table_text : String := demo_line ++ "\n\n" ++ demo_line2

/-- C4 witness: the round trip on a concrete two-line table text. -/
theorem c4_parse_round_trip_witness :
    parse_table demo_table_text "ISO-0001" "7" =
      some ⟨columns ++ ["ISO_NO", "REV.NO"],
        ((pySplitLines demo_table_text).filter (fun l => pyStrip l != "")).map
          (fun l => pySplitWs l ++ ["ISO-0001", "7"])⟩ :=
  (c4_parse_round_trip demo_table_text "ISO-0001" "7"
    (pySplitLines demo_table_text) rfl (by decide) (by decide)).1

/-- C1: with all five anchors present, the primary coordinate set's
table region is tried first; when its text is non-empty the ISO and
revision regions also come from set 1; only when it is empty does the
whole of set 2 take over; and when both table texts are empty the
extraction fails with `none` — regions of the two sets are never mixed
on one document. -/
theorem c1_layout_no_mixing (doc : Document) (np ip rp : Nat)
    (nr ir rr : Rect)
    (hn : (find_text_position doc "NPS").head? = some (np, nr))
    (ht : find_text_position doc "TOXIC" ≠ [])
    (hk : find_text_position doc "KOSHA" ≠ [])
    (hi : (find_text_position doc "ISO DWG. NO.").head? = some (ip, ir))
    (hr : (find_text_position doc "REV. NO").head? = some (rp, rr)) :
    (pyStrip (extract_text_in_region (doc.getPage np) table_rect_set1) ≠ "" →
      extract_data_from_pdf (some doc) =
        parse_table (extract_text_in_region (doc.getPage np) table_rect_set1)
          (extract_text_in_region (doc.getPage ip) iso_no_rect_set1)
          (extract_text_in_region (doc.getPage rp) rev_no_rect_set1)) ∧
    (pyStrip (extract_text_in_region (doc.getPage np) table_rect_set1) = "" →
      pyStrip (extract_text_in_region (doc.getPage np) table_rect_set2) ≠ "" →
      extract_data_from_pdf (some doc) =
        parse_table (extract_text_in_region (doc.getPage np) table_rect_set2)
          (extract_text_in_region (doc.getPage ip) iso_no_rect_set2)
          (extract_text_in_region (doc.getPage rp) rev_no_rect_set2)) ∧
    (pyStrip (extract_text_in_region (doc.getPage np) table_rect_set1) = "" →
      pyStrip (extract_text_in_region (doc.getPage np) table_rect_set2) = "" →
      extract_data_from_pdf (some doc) = none) := by
  obtain ⟨ntl, hn'⟩ : ∃ tl, find_text_position doc "NPS" = (np, nr) :: tl := by
    cases hcase : find_text_position doc "NPS" with
    | nil => rw [hcase] at hn; cases hn
    | cons a tl =>
      rw [hcase] at hn
      injection hn with h
      exact ⟨tl, by rw [h]⟩
  obtain ⟨itl, hi'⟩ : ∃ tl, find_text_position doc "ISO DWG. NO." = (ip, ir) :: tl := by
    cases hcase : find_text_position doc "ISO DWG. NO." with
    | nil => rw [hcase] at hi; cases hi
    | cons a tl =>
      rw [hcase] at hi
      injection hi with h
      exact ⟨tl, by rw [h]⟩
  obtain ⟨rtl, hr'⟩ : ∃ tl, find_text_position doc "REV. NO" = (rp, rr) :: tl := by
    cases hcase : find_text_position doc "REV. NO" with
    | nil => rw [hcase] at hr; cases hr
    | cons a tl =>
      rw [hcase] at hr
      injection hr with h
      exact ⟨tl, by rw [h]⟩
  have hcond : ¬ (find_text_position doc "NPS" = [] ∨
      find_text_position doc "TOXIC" = [] ∨
      find_text_position doc "KOSHA" = [] ∨
      find_text_position doc "ISO DWG. NO." = [] ∨
      find_text_position doc "REV. NO" = []) := by
    push_neg
    exact ⟨by rw [hn']; simp, ht, hk, by rw [hi']; simp, by rw [hr']; simp⟩
  refine ⟨?_, ?_, ?_⟩
  · intro h1
    show extract_data_from_doc doc = _
    simp only [extract_data_from_doc, hn', hi', hr', List.headD_cons]
    rw [if_neg (by simp [ht, hk]), if_pos h1]
  · intro h1 h2
    show extract_data_from_doc doc = _
    simp only [extract_data_from_doc, hn', hi', hr', List.headD_cons]
    rw [if_neg (by simp [ht, hk]), if_neg (not_not_intro h1), if_neg h2]
  · intro h1 h2
    show extract_data_from_doc doc = none
    simp only [extract_data_from_doc, hn', hi', hr', List.headD_cons]
    rw [if_neg (by simp [ht, hk]), if_neg (not_not_intro h1), if_pos h2]

/-- C1 witness: on a concrete document the primary set's table text is
non-empty and the result uses set 1's ISO and revision regions. -/
theorem c1_layout_no_mixing_witness :
    extract_data_from_pdf (some docPrimary) =
      parse_table (extract_text_in_region (docPrimary.getPage 0) table_rect_set1)
        (extract_text_in_region (docPrimary.getPage 1) iso_no_rect_set1)
        (extract_text_in_region (docPrimary.getPage 2) rev_no_rect_set1) :=
  (c1_layout_no_mixing docPrimary 0 1 2 ⟨0, 0, 1, 1⟩ ⟨2, 2, 3, 3⟩ ⟨4, 4, 5, 5⟩
    (by decide) (by decide) (by decide) (by decide) (by decide)).1 (by decide)

/-- C5: when any of the five required keywords has no anchor anywhere
in the document, extraction fails with the missing-anchor reason and
returns `none`, and a batch whose files all open to such a document
produces no combined table. -/
theorem c5_missing_anchor_fails (doc : Document)
    (h : find_text_position doc "NPS" = [] ∨
      find_text_position doc "TOXIC" = [] ∨
      find_text_position doc "KOSHA" = [] ∨
      find_text_position doc "ISO DWG. NO." = [] ∨
      find_text_position doc "REV. NO" = []) :
    extract_data_from_pdf (some doc) = none ∧
    extract_data_from_pdf_r (some doc) = .error .missingAnchor ∧
    ∀ (listing : List String) (openDoc : String → Option Document),
      (∀ f, openDoc f = some doc) →
      process_pdfs_in_folder listing openDoc = .noPdfs ∨
      process_pdfs_in_folder listing openDoc = .noData := by
  have h1 : extract_data_from_doc doc = none := by
    simp only [extract_data_from_doc, if_pos h]
  have h1r : extract_data_from_doc_r doc = .error .missingAnchor := by
    simp only [extract_data_from_doc_r, if_pos h]
  refine ⟨h1, h1r, ?_⟩
  intro listing openDoc hopen
  by_cases hp : pdf_files_of listing = []
  · left
    simp only [process_pdfs_in_folder, if_pos hp]
  · right
    have hall : (pdf_files_of listing).filterMap (fun f =>
        match extract_data_from_pdf (openDoc f) with
        | some df => if df.rows = [] then none else some df
        | none => none) = [] := by
      rw [List.filterMap_eq_nil_iff]
      intro f _
      rw [hopen f]
      show (match extract_data_from_doc doc with
        | some df => if df.rows = [] then none else some df
        | none => none) = none
      rw [h1]
    simp only [process_pdfs_in_folder, if_neg hp, if_pos hall]

/-- C5 witness: a document with no pages has no anchors at all; it
fails and a single-file batch over it reports the no-data outcome. -/
theorem c5_missing_anchor_fails_witness :
    extract_data_from_pdf (some docNoAnchors) = none ∧
    extract_data_from_pdf_r (some docNoAnchors) = .error .missingAnchor ∧
    (process_pdfs_in_folder ["a.pdf"] (fun _ => some docNoAnchors) = .noPdfs ∨
     process_pdfs_in_folder ["a.pdf"] (fun _ => some docNoAnchors) = .noData) :=
  have h := c5_missing_anchor_fails docNoAnchors (Or.inl rfl)
  ⟨h.1, h.2.1, h.2.2 ["a.pdf"] _ (fun _ => rfl)⟩

/-- C7: every successful extraction carries the 19 schema columns plus
`ISO_NO` and `REV.NO`, and every row is a 19-field base row with the
same document-level ISO and revision values appended as two trailing
fields. -/
theorem c7_success_row_shape (f : Option Document) (df : DataFrame)
    (h : extract_data_from_pdf f = some df) :
    df.cols = columns ++ ["ISO_NO", "REV.NO"] ∧
    df.cols.length = 21 ∧
    ∃ iso rev, ∀ row ∈ df.rows,
      ∃ base, base.length = columns.length ∧ row = base ++ [iso, rev] := by
  obtain ⟨t, i, r, hp⟩ := extract_some_exists_parse f df h
  obtain ⟨hdf, -, hlen⟩ := parse_table_eq_some t i r df hp
  subst hdf
  refine ⟨rfl, rfl, i, r, ?_⟩
  intro row hrow
  obtain ⟨base, hbase, rfl⟩ := List.mem_map.1 hrow
  exact ⟨base, hlen base hbase, rfl⟩

/-- The DataFrame extracted from `docPrimary`. -/
def dfPrimary : DataFrame :=
  ⟨columns ++ ["ISO_NO", "REV.NO"], [pySplitWs demo_line ++ ["ISO-0001", "7"]]⟩

/-- C7 witness: the row shape on a concrete successful document. -/
theorem c7_success_row_shape_witness :
    dfPrimary.cols = columns ++ ["ISO_NO", "REV.NO"] ∧
    dfPrimary.cols.length = 21 ∧
    ∃ iso rev, ∀ row ∈ dfPrimary.rows,
      ∃ base, base.length = columns.length ∧ row = base ++ [iso, rev] :=
  c7_success_row_shape (some docPrimary) dfPrimary (by decide)

/-- C8: per-document failures are skipped without aborting the batch —
the outcome is `noPdfs` exactly when no file matches, `noData` when no
document succeeds, and otherwise a combined table concatenating the
successful documents' rows in processing order; the empty-result report
is distinct from every combined-table report. -/
theorem c8_batch_aggregation (listing : List String)
    (openDoc : String → Option Document) :
    (process_pdfs_in_folder listing openDoc = .noPdfs ↔
      pdf_files_of listing = []) ∧
    (pdf_files_of listing ≠ [] →
      (pdf_files_of listing).filterMap
          (fun f => extract_data_from_pdf (openDoc f)) = [] →
      process_pdfs_in_folder listing openDoc = .noData) ∧
    ((pdf_files_of listing).filterMap
        (fun f => extract_data_from_pdf (openDoc f)) ≠ [] →
      process_pdfs_in_folder listing openDoc =
        .savedCsv ⟨columns ++ ["ISO_NO", "REV.NO"],
          (((pdf_files_of listing).filterMap
              (fun f => extract_data_from_pdf (openDoc f))).map
            DataFrame.rows).flatten⟩) ∧
    (∀ df : DataFrame, BatchResult.noData ≠ BatchResult.savedCsv df ∧
      BatchResult.noPdfs ≠ BatchResult.savedCsv df) := by
  have hfun : (fun f => match extract_data_from_pdf (openDoc f) with
      | some df => if df.rows = [] then none else some df
      | none => none) = fun f => extract_data_from_pdf (openDoc f) := by
    funext f
    match hx : extract_data_from_pdf (openDoc f) with
    | none => rfl
    | some df => exact if_neg (extract_rows_ne_nil (openDoc f) df hx)
  refine ⟨?_, ?_, ?_, ?_⟩
  · constructor
    · intro h
      by_contra hp
      simp only [process_pdfs_in_folder, if_neg hp] at h
      split at h <;> simp at h
    · intro hp
      simp only [process_pdfs_in_folder, if_pos hp]
  · intro hp hnil
    simp only [process_pdfs_in_folder, if_neg hp, hfun, if_pos hnil]
  · intro hne
    have hp : pdf_files_of listing ≠ [] := by
      intro hp
      rw [hp] at hne
      simp at hne
    simp only [process_pdfs_in_folder, if_neg hp, hfun, if_neg hne]
  · intro df
    exact ⟨by simp, by simp⟩

/-- C8 witness: a concrete two-file batch produces the concatenation of
both successful tables. -/
theorem c8_batch_aggregation_witness :
    process_pdfs_in_folder ["b.pdf", "a.pdf"] openDemo =
      .savedCsv ⟨columns ++ ["ISO_NO", "REV.NO"],
        (((pdf_files_of ["b.pdf", "a.pdf"]).filterMap
            (fun f => extract_data_from_pdf (openDemo f))).map
          DataFrame.rows).flatten⟩ :=
  (c8_batch_aggregation ["b.pdf", "a.pdf"] openDemo).2.2.1 (by decide)

/-- C9 counterexample: on the directory listing `["b.pdf", "a.pdf"]`
the pipeline keeps the listing's own order, which is not sorted-name
order — the combined output carries `b.pdf`'s (distinct) row before
`a.pdf`'s. -/
theorem c9_sorted_order_counterexample :
    pdf_files_of ["b.pdf", "a.pdf"] = ["b.pdf", "a.pdf"] ∧
    ¬ List.Pairwise (fun a b : String => charListLe a.data b.data = true)
        ["b.pdf", "a.pdf"] ∧
    process_pdfs_in_folder ["b.pdf", "a.pdf"] openDemo =
      .savedCsv ⟨columns ++ ["ISO_NO", "REV.NO"],
        [pySplitWs demo_line2 ++ ["ISO-0002", "8"],
         pySplitWs demo_line ++ ["ISO-0001", "7"]]⟩ ∧
    pySplitWs demo_line2 ++ ["ISO-0002", "8"] ≠
      pySplitWs demo_line ++ ["ISO-0001", "7"] :=
  ⟨by decide, by decide, by decide, by decide⟩

/-- C9 amended: input files are selected by case-insensitive `.pdf`
extension match, and are processed in the directory listing's own
order (the selection is a subsequence of the listing); no sorting is
applied. -/
theorem c9_selection_and_listing_order (listing : List String) :
    (∀ f, f ∈ pdf_files_of listing ↔
      f ∈ listing ∧ pyEndsWith (pyLower f) ".pdf" = true) ∧
    (pdf_files_of listing).Sublist listing :=
  ⟨fun _ => List.mem_filter, List.filter_sublist listing⟩

/-- C10: per-document extraction is a total function of its input, and
every failure kind — open error, missing anchor, no table text, empty
table, schema mismatch — collapses to the same returned value `none`:
failure reasons are indistinguishable in the value the batch
aggregator receives. -/
theorem c10_failures_indistinguishable (f₁ f₂ : Option Document)
    (k₁ k₂ : FailKind)
    (h₁ : extract_data_from_pdf_r f₁ = .error k₁)
    (h₂ : extract_data_from_pdf_r f₂ = .error k₂) :
    extract_data_from_pdf f₁ = none ∧ extract_data_from_pdf f₂ = none ∧
    extract_data_from_pdf f₁ = extract_data_from_pdf f₂ := by
  have e₁ : extract_data_from_pdf f₁ = none := by
    rw [extract_eq_toOption, h₁]
    rfl
  have e₂ : extract_data_from_pdf f₂ = none := by
    rw [extract_eq_toOption, h₂]
    rfl
  exact ⟨e₁, e₂, e₁.trans e₂.symm⟩

/-- C10 witness: an open failure and a missing-anchor failure return
the same value. -/
theorem c10_failures_indistinguishable_witness :
    extract_data_from_pdf none = none ∧
    extract_data_from_pdf (some docNoAnchors) = none ∧
    extract_data_from_pdf none = extract_data_from_pdf (some docNoAnchors) :=
  c10_failures_indistinguishable none (some docNoAnchors)
    .openError .missingAnchor rfl rfl

end PdfExtract
